import Mathlib

/-!
Shallow embedding of the merchant-withdrawal report server
(`src/server.js` and the embedded server variant inside
`src/models/UploadedFile.js`) for checking the natural-language
specification.

JavaScript numbers are modelled as rationals; the IEEE value `NaN`,
which in this code arises only as the result of `parseFloat` on
non-numeric input, is modelled by `Option ℚ` (`none` = NaN) in the
arithmetic of the report engine and by an explicit `JSVal.nan`
constructor where a NaN is stored back into a row.  Display
formatting with `toFixed(2)` is outside the numeric model: output
rows carry the full-precision values that the code formats.
-/

namespace MerchantReport

/-- Values that can sit in a spreadsheet row cell or in the
`merchantPercents` request object: a JS number, a JS string, the
JS number NaN, or `undefined` (absent property). -/
inductive JSVal where
  | num (q : ℚ)
  | str (s : String)
  | nan
  | undefinedVal
deriving DecidableEq, Repr

/-- JS truthiness for the values above: `0`, `""`, `NaN` and
`undefined` are falsy, everything else truthy. -/
def truthy : JSVal → Bool
  | .num q => q != 0
  | .str s => s != ""
  | .nan => false
  | .undefinedVal => false

/-- JS `a || b`: `a` when truthy, otherwise `b`. -/
def jsOr (a b : JSVal) : JSVal := if truthy a then a else b

/-- JS `v === m` for a string literal `m`: true only when `v` is the
equal string. -/
def jsEqStr (v : JSVal) (m : String) : Bool :=
  match v with
  | .str s => s == m
  | _ => false

/-- Numeric value of a decimal digit character. -/
def digitVal (c : Char) : Nat := c.toNat - '0'.toNat

/-- Natural number denoted by a list of decimal digit characters. -/
def natOfDigits (l : List Char) : Nat := l.foldl (fun a c => 10 * a + digitVal c) 0

/-- JS `parseFloat` on a string: skip leading spaces, optional sign,
then the longest `digits[.digits]` prefix; NaN (`none`) when no digit
is found.  (Exponent forms and `Infinity`, which never occur in this
application's inputs, are outside the model.) -/
def strToNum (s : String) : Option ℚ :=
  let cs := s.toList.dropWhile (· == ' ')
  let sgn : ℚ := match cs with
    | '-' :: _ => -1
    | _ => 1
  let cs₁ := match cs with
    | '-' :: r => r
    | '+' :: r => r
    | r => r
  let ip := cs₁.takeWhile Char.isDigit
  let rest := cs₁.dropWhile Char.isDigit
  let fp := match rest with
    | '.' :: r => r.takeWhile Char.isDigit
    | _ => []
  if ip.isEmpty && fp.isEmpty then none
  else some (sgn * ((natOfDigits ip : ℚ) + (natOfDigits fp : ℚ) / (10 : ℚ) ^ fp.length))

/-- JS `parseFloat` on an arbitrary value (`undefined` and
non-numeric strings give NaN). -/
def parseFloatJS : JSVal → Option ℚ
  | .num q => some q
  | .str s => strToNum s
  | .nan => none
  | .undefinedVal => none

/-- Addition on JS numbers with NaN propagation. -/
def nAdd : Option ℚ → Option ℚ → Option ℚ
  | some a, some b => some (a + b)
  | _, _ => none

/-- Sum of a list of JS numbers (NaN-propagating), starting from 0
like the accumulators `let totalW = 0, ...` in the code. -/
def nSum (l : List (Option ℚ)) : Option ℚ := l.foldl nAdd (some 0)

/-- Lexicographic order on character lists, as JS `<=` compares
strings (code-unit order; identical to this on the ASCII date
strings the code compares). -/
def charListLe : List Char → List Char → Bool
  | [], _ => true
  | _ :: _, [] => false
  | a :: as, b :: bs => if a < b then true else if b < a then false else charListLe as bs

/-- Strict lexicographic order on character lists (JS `<` / `>` on
strings). -/
def charListLt : List Char → List Char → Bool
  | [], [] => false
  | [], _ :: _ => true
  | _ :: _, [] => false
  | a :: as, b :: bs => if a < b then true else if b < a then false else charListLt as bs

/-- JS `a <= b` on strings. -/
def strLeB (a b : String) : Bool := charListLe a.toList b.toList

/-- JS `a < b` on strings. -/
def strLtB (a b : String) : Bool := charListLt a.toList b.toList

/-! ### Calendar arithmetic behind `Date.prototype.toISOString` -/

/-- Proleptic Gregorian date (year, month, day) of a day count
relative to 1970-01-01, the computation `toISOString` performs on a
UTC time value. -/
def civilFromDays (z0 : Int) : Int × Int × Int :=
  let z := z0 + 719468
  let era := Int.fdiv z 146097
  let doe := z - era * 146097
  let yoe := Int.fdiv (doe - Int.fdiv doe 1460 + Int.fdiv doe 36524 - Int.fdiv doe 146096) 365
  let y := yoe + era * 400
  let doy := doe - (365 * yoe + Int.fdiv yoe 4 - Int.fdiv yoe 100)
  let mp := Int.fdiv (5 * doy + 2) 153
  let d := doy - Int.fdiv (153 * mp + 2) 5 + 1
  let m := mp + (if mp < 10 then 3 else -9)
  (y + (if m ≤ 2 then 1 else 0), m, d)

/-- Decimal digit character of `n % 10`-style values. -/
def digitChar (n : Nat) : Char := Char.ofNat (48 + n)

/-- Two-digit zero-padded decimal rendering (months, days). -/
def pad2N (n : Nat) : List Char := [digitChar (n / 10 % 10), digitChar (n % 10)]

/-- Four-digit zero-padded decimal rendering (years 0–9999, the range
`toISOString` prints without an expanded-year sign). -/
def pad4N (n : Nat) : List Char :=
  [digitChar (n / 1000 % 10), digitChar (n / 100 % 10), digitChar (n / 10 % 10), digitChar (n % 10)]

/-- `YYYY-MM-DD` string of a day count relative to 1970-01-01: the
`toISOString().slice(0, 10)` of a time value on that day. -/
def isoOfDays (z : Int) : String :=
  let c := civilFromDays z
  String.mk (pad4N c.1.toNat ++ '-' :: pad2N c.2.1.toNat ++ '-' :: pad2N c.2.2.toNat)

/-- Milliseconds per day. -/
def msPerDay : Int := 86400000

/-- `Date.UTC(1899, 11, 30)` in milliseconds since the Unix epoch:
−25569 days. -/
def excelEpochMs : Int := -2209161600000

/-- JS number-to-integer truncation (toward zero) applied to a time
value, as the `Date` constructor does. -/
def jsTrunc (q : ℚ) : Int := Int.tdiv q.num q.den

/-- ECMAScript `TimeClip`: time values beyond ±8.64e15 ms are clipped
to NaN, making the `Date` invalid, whereupon `toISOString` throws a
`RangeError`. -/
def timeInRange (t : Int) : Bool := t.natAbs ≤ 8640000000000000

/-- The time value `excelEpoch.getTime() + (value - 1) * 86400000`
computed by the serial-number branch. -/
def serialTimeValue (v : ℚ) : Int :=
  jsTrunc ((excelEpochMs : ℚ) + (v - 1) * (msPerDay : ℚ))

/-- Serial-number branch of `extractDateOnly` (`src/server.js`
lines 62–65, identical — and equally unguarded — in both variants):
`new Date(excelEpoch.getTime() + (value - 1) * 86400000)
  .toISOString().slice(0, 10)`.  `none` models the `RangeError` that
`toISOString` raises when the time value falls outside the range
`Date` supports (e.g. for a Unix-milliseconds timestamp sitting in
the date column). -/
def serialToISO (v : ℚ) : Option String :=
  if timeInRange (serialTimeValue v) then
    some (isoOfDays (Int.fdiv (serialTimeValue v) msPerDay))
  else none

/-! ### `extractDateOnly`, both variants -/

/-- The regex test `/^\d{2}-\d{2}-\d{4}/.test(value)`: the string
starts with two digits, a dash, two digits, a dash, four digits. -/
def ddmmyyyyTest (s : String) : Bool :=
  match s.toList with
  | a :: b :: '-' :: c :: d :: '-' :: e :: f :: g :: h :: _ =>
    [a, b, c, d, e, f, g, h].all Char.isDigit
  | _ => false

/-- `value.split(' ')[0]`: the first space-separated token. -/
def firstToken (l : List Char) : List Char := l.takeWhile (· != ' ')

/-- JS `String.prototype.split` on one separator character. -/
def splitOnChar (c : Char) (l : List Char) : List (List Char) :=
  l.foldr
    (fun x acc =>
      if x == c then [] :: acc
      else
        match acc with
        | h :: t => (x :: h) :: t
        | [] => [[x]])
    [[]]

/-- Whether a (proleptic Gregorian) year is a leap year. -/
def isLeap (y : Nat) : Bool := (y % 4 == 0 && y % 100 != 0) || y % 400 == 0

/-- Days in a month of a given year. -/
def daysInMonth (y m : Nat) : Nat :=
  if m == 2 then (if isLeap y then 29 else 28)
  else if m == 4 || m == 6 || m == 9 || m == 11 then 30 else 31

/-- Validity of a calendar date with 1-based month and day. -/
def validYMD (y m d : Nat) : Bool :=
  1 ≤ m && m ≤ 12 && 1 ≤ d && d ≤ daysInMonth y m

/-- ECMAScript parsing of a `YYYY-MM-DD` date-only string followed by
`toISOString().slice(0, 10)`: accepted exactly when the year is four
digits, month and day two digits, and the calendar date is valid, in
which case the canonical string is returned unchanged.  `none` models
an Invalid Date.  (Other formats the host's legacy `Date` parser may
accept are outside the model; this application feeds it canonical and
garbage strings only.) -/
def isoParse (y m d : List Char) : Option String :=
  if y.length == 4 && y.all Char.isDigit
      && m.length == 2 && m.all Char.isDigit
      && d.length == 2 && d.all Char.isDigit
      && validYMD (natOfDigits y) (natOfDigits m) (natOfDigits d)
  then some (String.mk (y ++ '-' :: m ++ '-' :: d))
  else none

/-- The `DD-MM-YYYY` branch of `extractDateOnly`
(`src/server.js` lines 66–69):
`const [d, m, y] = value.split(' ')[0].split('-')` followed by
`new Date(y-m-d)`.  `none` models an Invalid Date, on which
`toISOString` throws. -/
def ddmmyyyyReparse (s : String) : Option String :=
  match splitOnChar '-' (firstToken s.toList) with
  | d :: m :: y :: _ => isoParse y m d
  | _ => none

/-- General parsing branch `new Date(value)` for strings
(`src/server.js` line 70), modelled on the `YYYY-MM-DD` subset of
inputs (see `isoParse`). -/
def generalParse (s : String) : Option String :=
  match splitOnChar '-' s.toList with
  | [y, m, d] => isoParse y m d
  | _ => none

/-- `extractDateOnly` as written in `src/server.js` lines 60–71: the
result is `none` when the code throws (calling `toISOString` on an
Invalid Date), which happens on every unparseable truthy string and
on every numeric serial whose time value is out of range. -/
def extractDateOnly (v : JSVal) : Option String :=
  if !truthy v then some ""
  else
    match v with
    | .num n => serialToISO n
    | .str s => if ddmmyyyyTest s then ddmmyyyyReparse s else generalParse s
    | .nan => some ""
    | .undefinedVal => some ""

/-- `extractDateOnly` of the embedded server variant
(`src/models/UploadedFile.js` lines 66–79): identical except that
both string branches guard with `isNaN(date.getTime())` and return
`''` instead of throwing.  The numeric branch carries no such guard,
so it still throws (`none`) on out-of-range serials, exactly like the
main variant. -/
def extractDateOnlyE (v : JSVal) : Option String :=
  if !truthy v then some ""
  else
    match v with
    | .num n => serialToISO n
    | .str s =>
      if ddmmyyyyTest s then some ((ddmmyyyyReparse s).getD "")
      else some ((generalParse s).getD "")
    | .nan => some ""
    | .undefinedVal => some ""

/-! ### Rows, the dataset store, and the upload endpoints -/

/-- A parsed spreadsheet row as `XLSX.utils.sheet_to_json` delivers
it: an object, i.e. an association list of column name to value. -/
abbrev RawRow := List (String × JSVal)

/-- An ingested row: the original cells plus the derived `DateOnly`
field added by `{...row, DateOnly: extractDateOnly(dateVal)}`. -/
structure Row where
  cells : List (String × JSVal)
  dateOnly : String
deriving DecidableEq, Repr

/-- JS property read `obj[k]`: the value at the key, `undefined` when
absent. -/
def getCell (r : RawRow) (k : String) : JSVal :=
  match r.find? (fun kv => kv.1 == k) with
  | some kv => kv.2
  | none => .undefinedVal

/-- Property read on an ingested row's original cells. -/
def getField (r : Row) (k : String) : JSVal := getCell r.cells k

/-- `obj.hasOwnProperty(k)`. -/
def hasKey (r : RawRow) (k : String) : Bool := r.any (fun kv => kv.1 == k)

/-- JS property write `obj[k] = v`: replaces the value when the key
exists, otherwise appends the new key. -/
def jsSet {α : Type} : List (String × α) → String → α → List (String × α)
  | [], k, v => [(k, v)]
  | (k', v') :: rest, k, v =>
    if k' == k then (k, v) :: rest else (k', v') :: jsSet rest k v

/-- `row['Date'] || row['Transaction Date'] || row['Created At']`
(`src/server.js` line 86). -/
def dateValOf (r : RawRow) : JSVal :=
  jsOr (getCell r "Date") (jsOr (getCell r "Transaction Date") (getCell r "Created At"))

/-- One row of the `rawData.map` in `/api/upload` (`src/server.js`
lines 85–88); `none` when `extractDateOnly` throws. -/
def processRow (r : RawRow) : Option Row :=
  (extractDateOnly (dateValOf r)).map (fun d => ⟨r, d⟩)

/-- The whole `rawData.map` of `/api/upload`; `none` when any row's
date value makes `extractDateOnly` throw. -/
def processAll (l : List RawRow) : Option (List Row) := l.mapM processRow

/-- First-occurrence deduplication, as `[...new Set(xs)]`. -/
def dedupFirst : List JSVal → List JSVal :=
  List.foldl (fun acc x => if x ∈ acc then acc else acc ++ [x]) []

/-- `[...new Set(data.map(r => r['Merchant Name']).filter(Boolean))]`
(`src/server.js` line 90). -/
def merchantList (rows : List Row) : List JSVal :=
  dedupFirst ((rows.map (fun r => getField r "Merchant Name")).filter truthy)

/-- The in-memory dataset store `globalDataMap` of `src/server.js`
line 40: an object mapping panel ids to row arrays, initialised with
keys `"1"` and `"2"`. -/
abbrev Store := List (String × List Row)

/-- `globalDataMap[k]` (reading; `[]`-typed default for the two keys
that exist). -/
def storeGet (m : Store) (k : String) : List Row :=
  match m.find? (fun kv => kv.1 == k) with
  | some kv => kv.2
  | none => []

/-- `req.query.type === 'Withdrawal' ? '2' : '1'` (`src/server.js`
lines 76 and 111). -/
def panelIdOf (qtype : JSVal) : String := if jsEqStr qtype "Withdrawal" then "2" else "1"

/-- Upload-time validation errors; `dateThrow` stands for the 500
response when `extractDateOnly` throws inside the row map. -/
inductive UploadErr where
  | emptySheet
  | missingCols (missing : List String) (hasDate : Bool)
  | dateThrow
deriving DecidableEq, Repr

/-- `POST /api/upload` of `src/server.js` lines 74–105, from the
point where the sheet has been parsed into `rawData`: validates only
non-emptiness, ingests every row, and replaces the panel's dataset in
the store.  Returns the updated store and the merchant list of the
response. -/
def mainUpload (store : Store) (qtype : JSVal) (rawData : List RawRow) :
    Except UploadErr (Store × List JSVal) :=
  if rawData.isEmpty then .error .emptySheet
  else
    match processAll rawData with
    | none => .error .dateThrow
    | some processed =>
      .ok (jsSet store (panelIdOf qtype) processed, merchantList processed)

/-- The three required columns of the embedded upload validation
(`src/models/UploadedFile.js` line 93). -/
def requiredColumns : List String := ["Merchant Name", "Withdrawal Amount", "Withdrawal Fees"]

/-- The accepted date columns (`src/models/UploadedFile.js` line 96). -/
def dateColumns : List String := ["Date", "Transaction Date", "Created At"]

/-- `requiredColumns.filter(col => !firstRow.hasOwnProperty(col))`. -/
def missingColumnsOf (firstRow : RawRow) : List String :=
  requiredColumns.filter (fun c => !hasKey firstRow c)

/-- `Object.keys(firstRow).some(key => [...dateColumns].includes(key))`. -/
def hasDateColumn (firstRow : RawRow) : Bool :=
  firstRow.any (fun kv => dateColumns.contains kv.1)

/-- One row of the embedded upload's `rawData.map`
(`src/models/UploadedFile.js` lines 105–111); `none` when the
unguarded numeric branch of the embedded `extractDateOnly` throws. -/
def processRowE (r : RawRow) : Option Row :=
  (extractDateOnlyE (dateValOf r)).map (fun d => ⟨r, d⟩)

/-- Insertion sort by a boolean order, modelling
`Array.prototype.sort()` on the merchant strings. -/
def insertLe {α : Type} (le : α → α → Bool) (x : α) : List α → List α
  | [] => [x]
  | y :: ys => if le x y then x :: y :: ys else y :: insertLe le x ys

/-- Sort modelling JS default `sort()` via string order. -/
def sortJS (l : List JSVal) : List JSVal :=
  l.foldr
    (insertLe (fun a b =>
      match a, b with
      | .str s, .str t => strLeB s t
      | _, _ => true))
    []

/-- `POST /upload` of the embedded variant
(`src/models/UploadedFile.js` lines 82–119), from the point where the
sheet has been parsed into `rawData`: validates the required columns
against the first row before ingesting anything.  On success returns
the new `globalData` and the sorted merchant list; `dateThrow` models
the 500 response (with `globalData` left unassigned) when a row's
date value makes the unguarded numeric branch throw. -/
def embeddedUpload (rawData : List RawRow) :
    Except UploadErr (List Row × List JSVal) :=
  if rawData.isEmpty then .error .emptySheet
  else
    let firstRow := rawData.headD []
    let missing := missingColumnsOf firstRow
    let hasDate := hasDateColumn firstRow
    if !missing.isEmpty || !hasDate then .error (.missingCols missing hasDate)
    else
      match rawData.mapM processRowE with
      | none => .error .dateThrow
      | some globalData => .ok (globalData, sortJS (merchantList globalData))

/-! ### The report engines -/

/-- The date clause of the row filter in `/api/generate`
(`src/server.js` lines 128–129):
`row.DateOnly >= normalizedStart && row.DateOnly <= normalizedEnd`. -/
def dateInRange (r : Row) (s e : String) : Bool :=
  strLeB s r.dateOnly && strLeB r.dateOnly e

/-- The full row filter of `/api/generate` (`src/server.js`
lines 127–131): date range plus `row['Merchant Name'] === merchant`. -/
def rowMatches (r : Row) (s e m : String) : Bool :=
  dateInRange r s e && jsEqStr (getField r "Merchant Name") m

/-- `data.filter(...)` for one merchant in `/api/generate`. -/
def merchantRows (data : List Row) (s e m : String) : List Row :=
  data.filter (fun r => rowMatches r s e m)

/-- `parseFloat(row['Withdrawal Amount'] || 0)` (`src/server.js`
line 138). -/
def rowW (r : Row) : Option ℚ :=
  parseFloatJS (jsOr (getField r "Withdrawal Amount") (.num 0))

/-- `parseFloat(row['Withdrawal Fees'] || 0)` (`src/server.js`
line 139). -/
def rowF (r : Row) : Option ℚ :=
  parseFloatJS (jsOr (getField r "Withdrawal Fees") (.num 0))

/-- `withdrawal * percent / 100` (`src/server.js` line 140), NaN
propagating. -/
def rowPA (p : ℚ) (r : Row) : Option ℚ :=
  (rowW r).map (fun w => w * p / 100)

/-- The per-merchant accumulators `totalW`, `totalF`, `totalP`. -/
structure MTotals where
  totalW : Option ℚ
  totalF : Option ℚ
  totalP : Option ℚ
deriving DecidableEq, Repr

/-- One step of the `rows.forEach` accumulation (`src/server.js`
lines 137–144). -/
def mStep (p : ℚ) (t : MTotals) (r : Row) : MTotals :=
  ⟨nAdd t.totalW (rowW r), nAdd t.totalF (rowF r), nAdd t.totalP (rowPA p r)⟩

/-- The totals after the whole `rows.forEach`, started from
`let totalW = 0, totalF = 0, totalP = 0`. -/
def totalsFor (p : ℚ) (rows : List Row) : MTotals :=
  rows.foldl (mStep p) ⟨some 0, some 0, some 0⟩

/-- One summary row pushed per merchant (`src/server.js`
lines 165–170); the dynamic percent-keyed column is represented by
the `percent` field, and the `toFixed(2)` display formatting is kept
outside the numeric model. -/
structure MSummary where
  merchant : String
  percent : ℚ
  totals : MTotals
deriving DecidableEq, Repr

/-- Rows of the 'Detailed Data' sheet (`src/server.js`
lines 146–159, 173–178): one `txn` row per matched transaction, a
`subtotal` row per merchant, and the final `grand` row. -/
inductive DetailRow where
  | txn (merchant : String) (percent : ℚ) (w f pa : Option ℚ)
  | subtotal (merchant : String) (percent : ℚ) (t : MTotals)
  | grand (w f pa : Option ℚ)
deriving DecidableEq, Repr

/-- Loop state of `/api/generate`: the two output sheets being built,
the grand-total accumulators, and the dataset (which the main variant
only reads). -/
structure GenState where
  details : List DetailRow
  summary : List MSummary
  grandW : Option ℚ
  grandF : Option ℚ
  grandP : Option ℚ
  data : List Row
deriving DecidableEq, Repr

/-- One iteration of `for (const merchant in merchantPercents)` in
`/api/generate` (`src/server.js` lines 123–171): skip non-numeric
percents, skip merchants with no matching rows, otherwise accumulate
totals, push detail and summary rows, and add into the grand
totals. -/
def mainStep (s e : String) (st : GenState) (entry : String × JSVal) : GenState :=
  match parseFloatJS entry.2 with
  | none => st
  | some p =>
    let rows := merchantRows st.data s e entry.1
    if rows.isEmpty then st
    else
      let t := totalsFor p rows
      { st with
        details := st.details
          ++ rows.map (fun r => .txn entry.1 p (rowW r) (rowF r) (rowPA p r))
          ++ [.subtotal entry.1 p t],
        summary := st.summary ++ [⟨entry.1, p, t⟩],
        grandW := nAdd st.grandW t.totalW,
        grandF := nAdd st.grandF t.totalF,
        grandP := nAdd st.grandP t.totalP }

/-- Generation-time failures of the two generate endpoints. -/
inductive GenErr where
  | noDataAvailable
  | startAfterEnd
  | noDataInRange
  | noMatchingMerchantData
deriving DecidableEq, Repr

/-- Result of `/api/generate`: the two sheets written into the report
artifact and the grand totals carried by the final `GRAND TOTAL` /
`TOTAL` rows.  An `Except.ok` value corresponds to the workbook being
written and the success response sent. -/
structure GenOut where
  details : List DetailRow
  summary : List MSummary
  grandW : Option ℚ
  grandF : Option ℚ
  grandP : Option ℚ
deriving DecidableEq, Repr

/-- `POST /api/generate` of `src/server.js` lines 108–214, from the
point where `startDate` and `endDate` have been normalized to the
canonical strings `s` and `e`: no date-range check and no
empty-summary check exist in this variant; the only failure is an
empty panel dataset.  The second component is the dataset afterwards
(state passed through the merchant loop). -/
def mainGenerate (data : List Row) (mp : List (String × JSVal)) (s e : String) :
    Except GenErr GenOut × List Row :=
  if data.isEmpty then (.error .noDataAvailable, data)
  else
    let st := mp.foldl (mainStep s e) ⟨[], [], some 0, some 0, some 0, data⟩
    (.ok ⟨st.details ++ [.grand st.grandW st.grandF st.grandP],
          st.summary, st.grandW, st.grandF, st.grandP⟩,
     st.data)

/-- The string JS interpolates for a number in the dynamic column key
`` `${percent}% Amount` ``: decimal rendering without trailing
zeros. -/
def natToChars : Nat → Nat → List Char
  | 0, _ => []
  | fuel + 1, n => if n < 10 then [digitChar n] else natToChars fuel (n / 10) ++ [digitChar (n % 10)]

/-- Fractional decimal digits of `rem / d`, stopping when exact
(denominators here always divide a power of ten because percents come
from `parseFloat` of decimal strings). -/
def fracDigits : Nat → Nat → Nat → List Char
  | 0, _, _ => []
  | fuel + 1, rem, d =>
    if rem == 0 then []
    else digitChar (rem * 10 / d) :: fracDigits fuel (rem * 10 % d) d

/-- JS number-to-string for the finite decimals used as percents. -/
def decimalString (q : ℚ) : String :=
  let n := q.num.natAbs
  let d := q.den
  let ip := String.mk (natToChars 30 (n / d))
  let fr := fracDigits 30 (n % d) d
  (if q < 0 then "-" else "") ++ ip ++ (if fr.isEmpty then "" else "." ++ String.mk fr)

/-- The dynamic column key `` `${percent}% Amount` ``. -/
def percentKey (p : ℚ) : String := decimalString p ++ "% Amount"

/-- A JS number that may be NaN, stored back into a row cell. -/
def jsNumOf : Option ℚ → JSVal
  | some q => .num q
  | none => .nan

/-- `row[percentKey] = percentAmount` on an ingested row
(`src/models/UploadedFile.js` line 160): the embedded variant mutates
the stored row object itself. -/
def addCell (r : Row) (k : String) (v : JSVal) : Row :=
  ⟨jsSet r.cells k v, r.dateOnly⟩

/-- Loop state of the embedded `/generate`: mutated dataset, the
`filteredData` sheet (references to the mutated rows), summary rows
and grand totals. -/
structure EmbState where
  data : List Row
  filtered : List Row
  summary : List MSummary
  grandW : Option ℚ
  grandF : Option ℚ
  grandP : Option ℚ
deriving DecidableEq, Repr

/-- One iteration of the embedded variant's merchant loop
(`src/models/UploadedFile.js` lines 146–178).  `dateFiltered` holds
references into `globalData`, so `row[key] = percentAmount` mutates
the stored rows; the mutation is modelled by mapping `addCell` over
the matched rows of the current dataset.  Added keys always end in
`"% Amount"`, so they never alter the fields the filters and
accumulators read. -/
def embStep (s e : String) (st : EmbState) (entry : String × JSVal) : EmbState :=
  match parseFloatJS entry.2 with
  | none => st
  | some p =>
    let rows := (st.data.filter (fun r => dateInRange r s e)).filter
      (fun r => jsEqStr (getField r "Merchant Name") entry.1)
    if rows.isEmpty then st
    else
      let t := totalsFor p rows
      { st with
        data := st.data.map (fun r =>
          if dateInRange r s e && jsEqStr (getField r "Merchant Name") entry.1
          then addCell r (percentKey p) (jsNumOf (rowPA p r)) else r),
        filtered := st.filtered
          ++ rows.map (fun r => addCell r (percentKey p) (jsNumOf (rowPA p r))),
        summary := st.summary ++ [⟨entry.1, p, t⟩],
        grandW := nAdd st.grandW t.totalW,
        grandF := nAdd st.grandF t.totalF,
        grandP := nAdd st.grandP t.totalP }

/-- Result of the embedded `/generate`: the 'Filtered Data' and
'Summary' sheets written to the artifact and the grand totals of the
final `TOTAL` row. -/
structure EmbOut where
  filtered : List Row
  summary : List MSummary
  grandW : Option ℚ
  grandF : Option ℚ
  grandP : Option ℚ
deriving DecidableEq, Repr

/-- `POST /generate` of the embedded variant
(`src/models/UploadedFile.js` lines 122–219), from the point where
the dates have been normalized: rejects `start > end`, an empty date
filter, and an empty summary, in that order; otherwise writes the
artifact.  The second component is `globalData` after the request
(the merchant loop mutates matched rows). -/
def embeddedGenerate (data : List Row) (mp : List (String × JSVal)) (s e : String) :
    Except GenErr EmbOut × List Row :=
  if strLtB e s then (.error .startAfterEnd, data)
  else if (data.filter (fun r => dateInRange r s e)).isEmpty then
    (.error .noDataInRange, data)
  else
    let st := mp.foldl (embStep s e) ⟨data, [], [], some 0, some 0, some 0⟩
    if st.summary.isEmpty then (.error .noMatchingMerchantData, st.data)
    else
      (.ok ⟨st.filtered, st.summary, st.grandW, st.grandF, st.grandP⟩, st.data)

/-- Decidable equality for `Except` results, used to evaluate the
endpoints on concrete inputs. -/
instance {ε α : Type} [DecidableEq ε] [DecidableEq α] : DecidableEq (Except ε α) := fun a b =>
  match a, b with
  | .error x, .error y =>
    if h : x = y then .isTrue (by rw [h]) else .isFalse (fun hc => h (Except.error.inj hc))
  | .error _, .ok _ => .isFalse (fun hc => Except.noConfusion hc)
  | .ok _, .error _ => .isFalse (fun hc => Except.noConfusion hc)
  | .ok x, .ok y =>
    if h : x = y then .isTrue (by rw [h]) else .isFalse (fun hc => h (Except.ok.inj hc))

/-! ### Concrete fixtures

Small datasets used to instantiate the theorems below; `acmeData`
realises the worked scenario of the specification (withdrawals 100
and 200, fees 5 and 10, percent `"2.5"`). -/

/-- First Acme transaction row. -/
def rAcme1 : Row :=
  ⟨[("Merchant Name", .str "Acme"), ("Withdrawal Amount", .num 100),
    ("Withdrawal Fees", .num 5)], "2024-01-01"⟩

/-- Second Acme transaction row. -/
def rAcme2 : Row :=
  ⟨[("Merchant Name", .str "Acme"), ("Withdrawal Amount", .num 200),
    ("Withdrawal Fees", .num 10)], "2024-01-02"⟩

/-- The two-row Acme dataset of the specification's scenario. -/
def acmeData : List Row := [rAcme1, rAcme2]

/-- The request percents `{Acme: "2.5"}`. -/
def acmeMP : List (String × JSVal) := [("Acme", .str "2.5")]

/-- The request percents `{Bob: "10"}` — a merchant absent from
`acmeData`. -/
def bobMP : List (String × JSVal) := [("Bob", .str "10")]

/-- The request percents `{Acme: "10"}`. -/
def tenMP : List (String × JSVal) := [("Acme", .str "10")]

/-- The request percents `{A: "10"}`. -/
def aMP : List (String × JSVal) := [("A", .str "10")]

/-- The report `/api/generate` produces for the Acme scenario. -/
def acmeOut : GenOut :=
  ⟨[.txn "Acme" (5/2) (some 100) (some 5) (some (5/2)),
    .txn "Acme" (5/2) (some 200) (some 10) (some 5),
    .subtotal "Acme" (5/2) ⟨some 300, some 15, some (15/2)⟩,
    .grand (some 300) (some 15) (some (15/2))],
   [⟨"Acme", 5/2, ⟨some 300, some 15, some (15/2)⟩⟩],
   some 300, some 15, some (15/2)⟩

/-- A row whose `Withdrawal Amount` cell holds the non-numeric,
truthy string `"abc"`. -/
def rNonNumeric : Row :=
  ⟨[("Merchant Name", .str "A"), ("Withdrawal Amount", .str "abc"),
    ("Withdrawal Fees", .num 5)], "2024-01-01"⟩

/-- A merchant-"A" row on a given day, for boundary checks. -/
def bRow (d : String) : Row := ⟨[("Merchant Name", .str "A")], d⟩

/-- Rows one day outside and exactly on the bounds of the range
`["2024-01-01", "2024-01-03"]`. -/
def boundaryData : List Row :=
  [bRow "2023-12-31", bRow "2024-01-01", bRow "2024-01-03", bRow "2024-01-04"]

/-- The store as initialised in `src/server.js` line 40. -/
def store0 : Store := [("1", []), ("2", [])]

/-- A sheet whose single row has none of the required columns. -/
def fooRaw : List RawRow := [[("Foo", .str "x")]]

/-- The store after `mainUpload store0` of `fooRaw` to panel 1. -/
def fooStore : Store := [("1", [⟨[("Foo", .str "x")], ""⟩]), ("2", [])]

/-- `rAcme1` after the embedded `/generate` with percent `"10"` has
mutated it: the dynamic column has been written into the stored
row. -/
def rAcme1Mutated : Row :=
  ⟨[("Merchant Name", .str "Acme"), ("Withdrawal Amount", .num 100),
    ("Withdrawal Fees", .num 5), ("10% Amount", .num 10)], "2024-01-01"⟩

/-! ## Helper lemmas -/

/-- A fold preserves any invariant its step preserves. -/
theorem foldPreserve {α σ : Type} (f : σ → α → σ) (P : σ → Prop)
    (hstep : ∀ st a, P st → P (f st a)) :
    ∀ (l : List α) (st : σ), P st → P (l.foldl f st)
  | [], _, h => h
  | a :: l, st, h => foldPreserve f P hstep l (f st a) (hstep st a h)

/-- Appending one value to a NaN-propagating sum. -/
theorem nSum_concat (l : List (Option ℚ)) (x : Option ℚ) :
    nSum (l ++ [x]) = nAdd (nSum l) x := by
  simp [nSum, List.foldl_append]

/-- The `rows.forEach` accumulation componentwise. -/
theorem totalsFold (p : ℚ) :
    ∀ (rows : List Row) (t : MTotals),
      rows.foldl (mStep p) t =
        ⟨(rows.map rowW).foldl nAdd t.totalW,
         (rows.map rowF).foldl nAdd t.totalF,
         (rows.map (rowPA p)).foldl nAdd t.totalP⟩
  | [], _ => rfl
  | r :: rows, t => by simpa [mStep] using totalsFold p rows (mStep p t r)

/-- The per-merchant totals are the NaN-propagating sums of the
per-row values over the merchant's matching rows. -/
theorem totalsFor_spec (p : ℚ) (rows : List Row) :
    totalsFor p rows =
      ⟨nSum (rows.map rowW), nSum (rows.map rowF), nSum (rows.map (rowPA p))⟩ :=
  totalsFold p rows ⟨some 0, some 0, some 0⟩

/-- The main merchant loop never writes to the dataset. -/
theorem mainStep_data (s e : String) (st : GenState) (en : String × JSVal) :
    (mainStep s e st en).data = st.data := by
  unfold mainStep
  cases parseFloatJS en.2
  · rfl
  · dsimp only
    split
    · rfl
    · rfl

/-- Dataset invariance across the whole main merchant loop. -/
theorem mainFold_data (s e : String) (mp : List (String × JSVal)) (st : GenState) :
    (mp.foldl (mainStep s e) st).data = st.data :=
  foldPreserve (mainStep s e) (fun x => x.data = st.data)
    (fun x a hx => (mainStep_data s e x a).trans hx) mp st rfl

/-- Any summary row present after one main loop step was either
already there or carries the fold of its merchant's matching rows. -/
theorem mainStep_summary_mem (s e : String) (st : GenState) (en : String × JSVal)
    (ms : MSummary) (h : ms ∈ (mainStep s e st en).summary) :
    ms ∈ st.summary ∨
      ms.totals = totalsFor ms.percent (merchantRows st.data s e ms.merchant) := by
  unfold mainStep at h
  cases hp : parseFloatJS en.2 <;> rw [hp] at h
  · exact Or.inl h
  case some p =>
    by_cases hr : (merchantRows st.data s e en.1).isEmpty = true <;> simp [hr] at h
    · exact Or.inl h
    · rcases h with h | h
      · exact Or.inl h
      · subst h
        exact Or.inr rfl

/-- Same property across the whole main merchant loop. -/
theorem mainFold_summary (s e : String) :
    ∀ (mp : List (String × JSVal)) (st : GenState) (ms : MSummary),
      ms ∈ (mp.foldl (mainStep s e) st).summary →
      ms ∈ st.summary ∨
        ms.totals = totalsFor ms.percent (merchantRows st.data s e ms.merchant)
  | [], _, _, h => Or.inl h
  | en :: rest, st, ms, h => by
    rcases mainFold_summary s e rest (mainStep s e st en) ms h with h' | h'
    · exact mainStep_summary_mem s e st en ms h'
    · rw [mainStep_data] at h'
      exact Or.inr h'

/-- Any transaction detail row present after one main loop step was
either already there or records the per-row values of a matching
row. -/
theorem mainStep_txn_mem (s e : String) (st : GenState) (en : String × JSVal)
    (m : String) (p : ℚ) (w f pa : Option ℚ)
    (h : DetailRow.txn m p w f pa ∈ (mainStep s e st en).details) :
    DetailRow.txn m p w f pa ∈ st.details ∨
      ∃ r, r ∈ merchantRows st.data s e m ∧ w = rowW r ∧ f = rowF r ∧ pa = rowPA p r := by
  unfold mainStep at h
  cases hp : parseFloatJS en.2 <;> rw [hp] at h
  · exact Or.inl h
  case some q =>
    by_cases hr : (merchantRows st.data s e en.1).isEmpty = true <;> simp [hr] at h
    · exact Or.inl h
    · rcases h with h | ⟨r, hr', hm, hq, hw, hf, hpa⟩
      · exact Or.inl h
      · subst hm
        subst hq
        exact Or.inr ⟨r, hr', hw.symm, hf.symm, hpa.symm⟩

/-- Same property across the whole main merchant loop. -/
theorem mainFold_txn (s e : String) :
    ∀ (mp : List (String × JSVal)) (st : GenState)
      (m : String) (p : ℚ) (w f pa : Option ℚ),
      DetailRow.txn m p w f pa ∈ (mp.foldl (mainStep s e) st).details →
      DetailRow.txn m p w f pa ∈ st.details ∨
        ∃ r, r ∈ merchantRows st.data s e m ∧ w = rowW r ∧ f = rowF r ∧ pa = rowPA p r
  | [], _, _, _, _, _, _, h => Or.inl h
  | en :: rest, st, m, p, w, f, pa, h => by
    rcases mainFold_txn s e rest (mainStep s e st en) m p w f pa h with h' | h'
    · exact mainStep_txn_mem s e st en m p w f pa h'
    · rw [mainStep_data] at h'
      exact Or.inr h'

/-- One main loop step preserves "the grand accumulators are the sums
of the summary rows so far". -/
theorem mainStep_grand (s e : String) (st : GenState) (en : String × JSVal)
    (h : st.grandW = nSum (st.summary.map fun ms => ms.totals.totalW) ∧
         st.grandF = nSum (st.summary.map fun ms => ms.totals.totalF) ∧
         st.grandP = nSum (st.summary.map fun ms => ms.totals.totalP)) :
    (mainStep s e st en).grandW
        = nSum ((mainStep s e st en).summary.map fun ms => ms.totals.totalW) ∧
      (mainStep s e st en).grandF
        = nSum ((mainStep s e st en).summary.map fun ms => ms.totals.totalF) ∧
      (mainStep s e st en).grandP
        = nSum ((mainStep s e st en).summary.map fun ms => ms.totals.totalP) := by
  unfold mainStep
  cases hp : parseFloatJS en.2
  · exact h
  case some p =>
    by_cases hr : (merchantRows st.data s e en.1).isEmpty = true <;> simp [hr]
    · exact h
    · refine ⟨?_, ?_, ?_⟩ <;> simp [nSum_concat, h.1, h.2.1, h.2.2]

/-- A skipping iteration (non-numeric percent or no matching rows)
leaves the embedded loop state untouched. -/
theorem embStep_skip (s e : String) (st : EmbState) (en : String × JSVal)
    (h : parseFloatJS en.2 = none ∨
      ((st.data.filter fun r => dateInRange r s e).filter
        (fun r => jsEqStr (getField r "Merchant Name") en.1)).isEmpty = true) :
    embStep s e st en = st := by
  unfold embStep
  rcases h with h | h
  · rw [h]
  · cases hp : parseFloatJS en.2
    · rfl
    · simp only [h]
      rfl

/-- A whole embedded merchant loop in which every entry skips leaves
the state untouched. -/
theorem embFold_skip (s e : String) :
    ∀ (mp : List (String × JSVal)) (st : EmbState),
      (∀ en ∈ mp, parseFloatJS en.2 = none ∨
        ((st.data.filter fun r => dateInRange r s e).filter
          (fun r => jsEqStr (getField r "Merchant Name") en.1)).isEmpty = true) →
      mp.foldl (embStep s e) st = st
  | [], _, _ => rfl
  | en :: rest, st, h => by
    have h0 := embStep_skip s e st en (h en (List.mem_cons_self en rest))
    rw [List.foldl_cons, h0]
    exact embFold_skip s e rest st (fun x hx => h x (List.mem_cons_of_mem en hx))

/-- Reading any other key is unaffected by a JS property write. -/
theorem storeGet_jsSet_ne :
    ∀ (m : Store) (k k' : String) (v : List Row), k' ≠ k →
      storeGet (jsSet m k v) k' = storeGet m k'
  | [], k, k', v, h => by
    have hb : (k == k') = false := beq_eq_false_iff_ne.mpr (Ne.symm h)
    simp [jsSet, storeGet, List.find?, hb]
  | (k₀, v₀) :: rest, k, k', v, h => by
    by_cases hk : (k₀ == k) = true
    · have hkk : k₀ = k := by simpa using hk
      subst hkk
      have hb : (k₀ == k') = false := beq_eq_false_iff_ne.mpr (Ne.symm h)
      simp [jsSet, storeGet, List.find?, hb]
    · have hkb : (k₀ == k) = false := by simpa using hk
      by_cases hk' : (k₀ == k') = true
      · simp [jsSet, storeGet, List.find?, hkb, hk']
      · have hk'b : (k₀ == k') = false := by simpa using hk'
        simp only [jsSet, storeGet, List.find?, hkb, hk'b, Bool.false_eq_true, if_false]
        exact storeGet_jsSet_ne rest k k' v h

/-- A JS property write to an existing key preserves the key list. -/
theorem jsSet_keys :
    ∀ (m : Store) (k : String) (v : List Row),
      (m.map Prod.fst).contains k = true →
      (jsSet m k v).map Prod.fst = m.map Prod.fst
  | [], k, v, h => by simp at h
  | (k₀, v₀) :: rest, k, v, h => by
    by_cases hk : (k₀ == k) = true
    · have hkk : k₀ = k := by simpa using hk
      simp [jsSet, hk, hkk]
    · have hkb : (k₀ == k) = false := by simpa using hk
      have hne : k₀ ≠ k := beq_eq_false_iff_ne.mp hkb
      have hrest : ((rest.map Prod.fst).contains k) = true := by
        simp only [List.map_cons, List.contains_cons] at h
        rcases Bool.or_eq_true_iff.mp h with h' | h'
        · exact absurd (beq_iff_eq.mp h').symm hne
        · exact h'
      simp [jsSet, hkb, jsSet_keys rest k v hrest]

/-! ## Claim theorems -/

/-- C3 (amended): in the embedded `/generate` flow, every request
whose normalized start date is lexically greater than its normalized
end date is rejected with the date-range error before anything is
computed or written, and the stored dataset is untouched.  (The main
`/api/generate` flow performs no such check; see the
counterexample.) -/
theorem c3_embedded_generate_rejects
    (data : List Row) (mp : List (String × JSVal)) (s e : String)
    (h : strLtB e s = true) :
    embeddedGenerate data mp s e = (.error .startAfterEnd, data) := by
  simp [embeddedGenerate, h]

/-- C3 witness: a concrete reversed range is rejected by the
embedded flow. -/
theorem c3_embedded_generate_rejects_witness :
    embeddedGenerate acmeData acmeMP "2024-02-02" "2024-01-01"
      = (.error .startAfterEnd, acmeData) :=
  c3_embedded_generate_rejects acmeData acmeMP "2024-02-02" "2024-01-01" (by decide)

/-- C3 counterexample: the main `/api/generate` flow accepts the same
reversed range, succeeds, and writes an artifact whose summary is
empty and whose grand totals are zero — contradicting the claim that
every such request is rejected with no artifact written. -/
theorem c3_main_generate_accepts_reversed_range :
    (mainGenerate acmeData acmeMP "2024-02-02" "2024-01-01").1
      = .ok ⟨[.grand (some 0) (some 0) (some 0)], [], some 0, some 0, some 0⟩ := by
  with_unfolding_all decide

/-- C4 (amended): in the embedded `/generate` flow, when the range is
well-formed and non-empty but every `merchantPercents` entry is
skipped (non-numeric percent, or no row of the date-filtered dataset
has that exact merchant name), the whole request fails with the
no-matching-merchant-data error and the dataset is untouched.  (The
main `/api/generate` flow has no such check; see the
counterexample.) -/
theorem c4_embedded_generate_no_match
    (data : List Row) (mp : List (String × JSVal)) (s e : String)
    (h1 : strLtB e s = false)
    (h2 : (data.filter fun r => dateInRange r s e).isEmpty = false)
    (h3 : ∀ en ∈ mp, parseFloatJS en.2 = none ∨
      ((data.filter fun r => dateInRange r s e).filter
        (fun r => jsEqStr (getField r "Merchant Name") en.1)).isEmpty = true) :
    embeddedGenerate data mp s e = (.error .noMatchingMerchantData, data) := by
  unfold embeddedGenerate
  rw [h1]
  simp only [Bool.false_eq_true, if_false, h2]
  rw [embFold_skip s e mp ⟨data, [], [], some 0, some 0, some 0⟩ h3]
  rfl

/-- C4 witness: requesting only the absent merchant `"Bob"` over the
Acme dataset fails with the no-matching-merchant-data error in the
embedded flow. -/
theorem c4_embedded_generate_no_match_witness :
    embeddedGenerate acmeData bobMP "2024-01-01" "2024-01-02"
      = (.error .noMatchingMerchantData, acmeData) :=
  c4_embedded_generate_no_match acmeData bobMP "2024-01-01" "2024-01-02"
    (by decide) (by decide) (by with_unfolding_all decide)

/-- C4 counterexample: the main `/api/generate` flow, for the same
request in which no merchant produces any output, succeeds and writes
an artifact with an empty, zero-only summary instead of failing. -/
theorem c4_main_generate_accepts_no_match :
    (mainGenerate acmeData bobMP "2024-01-01" "2024-01-02").1
      = .ok ⟨[.grand (some 0) (some 0) (some 0)], [], some 0, some 0, some 0⟩ := by
  with_unfolding_all decide

/-- C5: both variants of `extractDateOnly` map the spreadsheet serial
45000 to `2023-03-14` and serial 1 to `1899-12-30` — one day earlier
than the common spreadsheet date system the specification states
(day 1 = 1899-12-31, serial 45000 = 2023-03-15), because the code
adds `(value - 1)` days to the 1899-12-30 epoch. -/
theorem c5_serial_dates_off_by_one :
    extractDateOnly (.num 45000) = some "2023-03-14" ∧
      extractDateOnly (.num 1) = some "1899-12-30" ∧
      extractDateOnlyE (.num 45000) = some "2023-03-14" := by
  with_unfolding_all decide

/-- C6 counterexample: on the unparseable truthy string
`"garbage"`, `extractDateOnly` of `src/server.js` calls `toISOString`
on an Invalid Date and therefore throws (modelled by `none`) instead
of returning the empty string — the normalizer of the main server is
not total. -/
theorem c6_main_normalizer_throws :
    extractDateOnly (.str "garbage") = none ∧
      extractDateOnly (.str "garbage") ≠ some "" := by
  decide

/-- C6 (amended): neither normalizer is total.  The embedded
variant's `extractDateOnly` never throws on falsy inputs or on string
inputs of any content — it returns the empty string whenever both
string-parsing paths fail — and it converts a numeric serial without
throwing whenever the computed time value lies within the ±8.64e15 ms
range `Date` supports; but on a numeric input outside that range the
unguarded numeric branch of BOTH variants throws (modelled by
`none`), and the main variant additionally throws on every
unparseable truthy string (see the counterexample). -/
theorem c6_embedded_normalizer_string_total :
    (∀ s : String, (extractDateOnlyE (.str s)).isSome = true) ∧
      (∀ v : JSVal, truthy v = false → extractDateOnlyE v = some "") ∧
      (∀ s : String, ddmmyyyyReparse s = none → generalParse s = none →
        extractDateOnlyE (.str s) = some "") ∧
      (∀ n : ℚ, timeInRange (serialTimeValue n) = true →
        (extractDateOnlyE (.num n)).isSome = true) ∧
      extractDateOnlyE (.num 10000000000000000) = none ∧
      extractDateOnly (.num 10000000000000000) = none := by
  refine ⟨?_, ?_, ?_, ?_, ?_, ?_⟩
  · intro s
    unfold extractDateOnlyE
    split
    · rfl
    · dsimp only
      split <;> rfl
  · intro v hv
    simp [extractDateOnlyE, hv]
  · intro s h1 h2
    simp only [extractDateOnlyE]
    split
    · rfl
    · split <;> simp [h1, h2]
  · intro n hn
    unfold extractDateOnlyE
    split
    · rfl
    · dsimp only
      simp [serialToISO, hn]
  · with_unfolding_all decide
  · with_unfolding_all decide

/-- C6 witness: the embedded normalizer returns the empty string on
`"garbage"` and converts the in-range serial 45000 without
throwing. -/
theorem c6_embedded_normalizer_string_total_witness :
    (extractDateOnlyE (.str "garbage")).isSome = true ∧
      extractDateOnlyE (.str "garbage") = some "" ∧
      (extractDateOnlyE (.num 45000)).isSome = true :=
  ⟨c6_embedded_normalizer_string_total.1 "garbage",
   c6_embedded_normalizer_string_total.2.2.1 "garbage" (by decide) (by decide),
   c6_embedded_normalizer_string_total.2.2.2.1 45000 (by with_unfolding_all decide)⟩

/-- C7: a row is selected for a merchant exactly when it belongs to
the dataset, its `DateOnly` is lexically between the normalized
bounds inclusive, and its merchant name is strictly equal to the
requested one; concretely, rows exactly on either bound of
`["2024-01-01", "2024-01-03"]` are included and rows one day outside
either bound are excluded. -/
theorem c7_date_filter_boundary :
    (∀ (data : List Row) (s e m : String) (r : Row),
        r ∈ merchantRows data s e m ↔
          r ∈ data ∧ strLeB s r.dateOnly = true ∧ strLeB r.dateOnly e = true ∧
            jsEqStr (getField r "Merchant Name") m = true) ∧
      bRow "2024-01-01" ∈ merchantRows boundaryData "2024-01-01" "2024-01-03" "A" ∧
      bRow "2024-01-03" ∈ merchantRows boundaryData "2024-01-01" "2024-01-03" "A" ∧
      bRow "2023-12-31" ∉ merchantRows boundaryData "2024-01-01" "2024-01-03" "A" ∧
      bRow "2024-01-04" ∉ merchantRows boundaryData "2024-01-01" "2024-01-03" "A" := by
  refine ⟨fun data s e m r => ?_, by decide, by decide, by decide, by decide⟩
  simp [merchantRows, rowMatches, dateInRange, List.mem_filter, and_assoc]

/-- C8 (amended): the embedded `/upload` flow rejects a sheet whose
first row lacks any of the required columns (or every date column)
with an error enumerating exactly the missing required columns and
whether a date column was found, before any row is ingested.  (The
main `/api/upload` flow performs no column validation at all; see
the counterexample.) -/
theorem c8_embedded_upload_rejects (rawData : List RawRow)
    (h1 : rawData.isEmpty = false)
    (h2 : (missingColumnsOf (rawData.headD [])).isEmpty = false ∨
          hasDateColumn (rawData.headD []) = false) :
    embeddedUpload rawData
      = .error (.missingCols (missingColumnsOf (rawData.headD []))
                 (hasDateColumn (rawData.headD []))) := by
  unfold embeddedUpload
  rw [h1]
  have hcond : (!(missingColumnsOf (rawData.headD [])).isEmpty
      || !hasDateColumn (rawData.headD [])) = true := by
    rcases h2 with h2 | h2
    · exact Bool.or_eq_true_iff.mpr (Or.inl (by rw [h2]; rfl))
    · exact Bool.or_eq_true_iff.mpr (Or.inr (by rw [h2]; rfl))
  simp only [Bool.false_eq_true, if_false, hcond, if_true]

/-- C8 witness: a sheet missing all three required columns and every
date column is rejected with exactly that enumeration. -/
theorem c8_embedded_upload_rejects_witness :
    embeddedUpload fooRaw
      = .error (.missingCols ["Merchant Name", "Withdrawal Amount", "Withdrawal Fees"]
                 false) := by
  rw [c8_embedded_upload_rejects fooRaw (by decide) (Or.inl (by decide))]
  decide

/-- C8 counterexample: the main `/api/upload` flow accepts the very
same sheet with no required column present, ingests its row into the
panel-1 dataset, and reports success — contradicting the claim that
such uploads are rejected and nothing is ingested. -/
theorem c8_main_upload_no_validation :
    mainUpload store0 .undefinedVal fooRaw = .ok (fooStore, []) := by
  decide

/-- C9 (amended): the main `/api/generate` flow never modifies the
stored dataset — the panel's rows are identical before and after
every request.  (The embedded `/generate` variant writes the dynamic
percent-amount field into matched stored rows; see the
counterexample.) -/
theorem c9_main_generate_preserves_store
    (data : List Row) (mp : List (String × JSVal)) (s e : String) :
    (mainGenerate data mp s e).2 = data := by
  unfold mainGenerate
  by_cases hd : data.isEmpty = true
  · rw [hd]
    rfl
  · simp only [hd, Bool.false_eq_true, if_false]
    exact mainFold_data s e mp ⟨[], [], some 0, some 0, some 0, data⟩

/-- C9 counterexample: one embedded `/generate` request over the Acme
dataset leaves the store holding a mutated first row — the stored row
gained the `"10% Amount"` cell — so rows held in the dataset store
are not unchanged after the request. -/
theorem c9_embedded_generate_mutates_store :
    (embeddedGenerate acmeData tenMP "2024-01-01" "2024-01-01").2
        = [rAcme1Mutated, rAcme2] ∧
      (embeddedGenerate acmeData tenMP "2024-01-01" "2024-01-01").2 ≠ acmeData := by
  with_unfolding_all decide

/-- C10: a successful upload replaces only the selected panel's
dataset: reading any other key of the store gives exactly what it
gave before, and (the store having its two fixed panel keys) the key
list of the store is unchanged. -/
theorem c10_upload_touches_only_selected_panel (store : Store) (qtype : JSVal)
    (rawData : List RawRow) (res : Store × List JSVal)
    (h : mainUpload store qtype rawData = .ok res) :
    (∀ k : String, k ≠ panelIdOf qtype → storeGet res.1 k = storeGet store k) ∧
      ((store.map Prod.fst).contains (panelIdOf qtype) = true →
        res.1.map Prod.fst = store.map Prod.fst) := by
  unfold mainUpload at h
  by_cases hd : rawData.isEmpty = true
  · rw [hd] at h
    exact absurd h (by simp)
  · simp only [hd, Bool.false_eq_true, if_false] at h
    cases hp : processAll rawData <;> rw [hp] at h
    · exact absurd h (by simp)
    · rename_i processed
      have hres := Except.ok.inj h
      subst hres
      exact ⟨fun k hk => storeGet_jsSet_ne store (panelIdOf qtype) k processed hk,
             fun hmem => jsSet_keys store (panelIdOf qtype) processed hmem⟩

/-- C10 witness: uploading `fooRaw` to panel 1 leaves panel 2 and the
key list unchanged. -/
theorem c10_upload_touches_only_selected_panel_witness :
    storeGet fooStore "2" = storeGet store0 "2" ∧
      fooStore.map Prod.fst = store0.map Prod.fst := by
  have h := c10_upload_touches_only_selected_panel store0 .undefinedVal fooRaw (fooStore, [])
    (by decide)
  exact ⟨h.1 "2" (by decide), h.2 (by decide)⟩

/-- C1 (amended): in every successful `/api/generate` report, each
summary row's totals are the NaN-propagating sums, over that
merchant's matching rows, of the per-row withdrawal, fee and percent
amount, where the percent amount of a row is
`withdrawal * percent / 100`; each transaction detail row records
exactly those per-row values of some matching row; and a withdrawal
or fee cell that is missing or otherwise falsy is taken as 0.  (A
truthy non-numeric cell is NOT taken as 0: `parseFloat` yields NaN,
which propagates into the totals; see the counterexample.) -/
theorem c1_row_computation (data : List Row) (mp : List (String × JSVal)) (s e : String)
    (out : GenOut) (h : (mainGenerate data mp s e).1 = .ok out) :
    (∀ ms ∈ out.summary,
        ms.totals.totalW = nSum ((merchantRows data s e ms.merchant).map rowW) ∧
        ms.totals.totalF = nSum ((merchantRows data s e ms.merchant).map rowF) ∧
        ms.totals.totalP = nSum ((merchantRows data s e ms.merchant).map (rowPA ms.percent))) ∧
      (∀ (m : String) (p : ℚ) (w f pa : Option ℚ),
        DetailRow.txn m p w f pa ∈ out.details →
        ∃ r, r ∈ merchantRows data s e m ∧ w = rowW r ∧ f = rowF r ∧
          pa = (rowW r).map fun x => x * p / 100) ∧
      (∀ r : Row, truthy (getField r "Withdrawal Amount") = false → rowW r = some 0) ∧
      (∀ r : Row, truthy (getField r "Withdrawal Fees") = false → rowF r = some 0) := by
  unfold mainGenerate at h
  by_cases hd : data.isEmpty = true
  · rw [hd] at h
    exact absurd h (by simp)
  · simp only [hd, Bool.false_eq_true, if_false] at h
    have hout := Except.ok.inj h
    subst hout
    refine ⟨?_, ?_, ?_, ?_⟩
    · intro ms hms
      rcases mainFold_summary s e mp ⟨[], [], some 0, some 0, some 0, data⟩ ms hms
        with h' | h'
      · cases h'
      · rw [totalsFor_spec] at h'
        exact ⟨by rw [h'], by rw [h'], by rw [h']⟩
    · intro m p w f pa hmem
      rw [List.mem_append] at hmem
      rcases hmem with hmem | hmem
      · rcases mainFold_txn s e mp ⟨[], [], some 0, some 0, some 0, data⟩ m p w f pa hmem
          with h' | h'
        · cases h'
        · exact h'
      · simp at hmem
    · intro r hr
      simp [rowW, jsOr, hr, parseFloatJS]
    · intro r hr
      simp [rowF, jsOr, hr, parseFloatJS]

/-- C1 witness: in the Acme scenario report, the summary totals for
Acme are the sums over its two matching rows. -/
theorem c1_row_computation_witness :
    (⟨"Acme", 5/2, ⟨some 300, some 15, some (15/2)⟩⟩ : MSummary).totals.totalW
      = nSum ((merchantRows acmeData "2024-01-01" "2024-01-02" "Acme").map rowW) :=
  ((c1_row_computation acmeData acmeMP "2024-01-01" "2024-01-02" acmeOut
      (by with_unfolding_all decide)).1
    ⟨"Acme", 5/2, ⟨some 300, some 15, some (15/2)⟩⟩
    (by with_unfolding_all decide)).1

/-- C1 counterexample: with a truthy non-numeric `Withdrawal Amount`
cell (`"abc"`), the computed per-merchant total withdrawal is NaN
(`none`), not the 0 the claim requires for non-numeric cells. -/
theorem c1_nonnumeric_is_nan_not_zero :
    truthy (getField rNonNumeric "Withdrawal Amount") = true ∧
      rowW rNonNumeric = none ∧
      (mainGenerate [rNonNumeric] aMP "2024-01-01" "2024-01-01").1
        = .ok ⟨[.txn "A" 10 none (some 5) none,
                .subtotal "A" 10 ⟨none, some 5, none⟩,
                .grand none (some 5) none],
               [⟨"A", 10, ⟨none, some 5, none⟩⟩],
               none, some 5, none⟩ ∧
      (none : Option ℚ) ≠ some 0 := by
  refine ⟨by decide, by with_unfolding_all decide, ?_, by decide⟩
  with_unfolding_all decide

/-- C2: in every successful `/api/generate` report, the grand totals
carried by the final `GRAND TOTAL` / `TOTAL` rows equal the
NaN-propagating sums of the per-merchant summary totals, for the
withdrawal amount, the fees and the percent amount alike. -/
theorem c2_grand_totals_are_sums (data : List Row) (mp : List (String × JSVal))
    (s e : String) (out : GenOut)
    (h : (mainGenerate data mp s e).1 = .ok out) :
    out.grandW = nSum (out.summary.map fun ms => ms.totals.totalW) ∧
      out.grandF = nSum (out.summary.map fun ms => ms.totals.totalF) ∧
      out.grandP = nSum (out.summary.map fun ms => ms.totals.totalP) := by
  unfold mainGenerate at h
  by_cases hd : data.isEmpty = true
  · rw [hd] at h
    exact absurd h (by simp)
  · simp only [hd, Bool.false_eq_true, if_false] at h
    have hout := Except.ok.inj h
    subst hout
    exact foldPreserve (mainStep s e)
      (fun st => st.grandW = nSum (st.summary.map fun ms => ms.totals.totalW) ∧
        st.grandF = nSum (st.summary.map fun ms => ms.totals.totalF) ∧
        st.grandP = nSum (st.summary.map fun ms => ms.totals.totalP))
      (fun st en hst => mainStep_grand s e st en hst)
      mp ⟨[], [], some 0, some 0, some 0, data⟩ ⟨rfl, rfl, rfl⟩

/-- C2 witness: in the Acme scenario report the grand withdrawal
total is the sum of the per-merchant withdrawal totals. -/
theorem c2_grand_totals_are_sums_witness :
    acmeOut.grandW = nSum (acmeOut.summary.map fun ms => ms.totals.totalW) :=
  (c2_grand_totals_are_sums acmeData acmeMP "2024-01-01" "2024-01-02" acmeOut
    (by with_unfolding_all decide)).1

end MerchantReport
